import Mathlib

/-!
Verification of the Model Health Risk Classifier embedded in
src/prediction_ui.py (the decision logic inside main, lines 216 to 298,
and the system-wide health section, lines 341 to 383).

Numbers are modelled as rationals.  The failure-risk response body is a
record of optional fields, mirroring the dictionary lookups with defaults
performed by the source (risk_data.get, degradation.get).  The error field
holds an arbitrary JSON-like value when the key is present, since the
source only tests key presence (line 221).
-/

namespace PredictionUI

/-- A JSON-like value.  Used for the payload of the error key of the
failure-risk response body: the source tests only whether the key is
present, never its value. -/
inductive Jsonv where
  | null : Jsonv
  | str : String → Jsonv
  | num : ℚ → Jsonv
  | boolean : Bool → Jsonv
  deriving DecidableEq, Repr

/-- The degradation object nested in the failure-risk response body.
Every field may be absent; the source reads each with a default of 0
(lines 224, 244, 250). -/
structure Degradation where
  overall_degradation : Option ℚ
  confidence_drop : Option ℚ
  psi_increase : Option ℚ
  deriving DecidableEq, Repr

/-- The parsed body of a successful failure-risk response, as consumed by
the health section (lines 219 to 224).  The error field records whether
the error key is present and with which value. -/
structure RiskData where
  error : Option Jsonv
  risk : Option String
  degradation : Option Degradation
  deriving DecidableEq, Repr

/-- Outcome of the failure-risk call as seen by the health section: either
a parsed body, or the bare except branch at line 279 (connection error,
timeout, or any other exception during the call). -/
inductive ReportOutcome where
  | success : RiskData → ReportOutcome
  | transportFailure : ReportOutcome
  deriving DecidableEq, Repr

/-- Which of the three fallback paths produced the verdict. -/
inductive Tier where
  | TELEMETRY : Tier
  | CONFIDENCE_FALLBACK_ERROR : Tier
  | CONFIDENCE_FALLBACK_TRANSPORT : Tier
  deriving DecidableEq, Repr

/-- The displayed risk category: st.success renders HEALTHY, st.warning
renders RISKY, st.error renders CRITICAL. -/
inductive RiskLevelDisplay where
  | HEALTHY : RiskLevelDisplay
  | RISKY : RiskLevelDisplay
  | CRITICAL : RiskLevelDisplay
  deriving DecidableEq, Repr

/-- The three metrics shown under the verdict.  The telemetry branch shows
confidence drop, PSI increase and the raw risk string (lines 240 to 258);
both fallback branches show the confidence score, a health-status string
and a risk-level string (lines 270 to 278 and 290 to 298). -/
inductive Breakdown where
  | telemetry : ℚ → ℚ → String → Breakdown
  | fallback : ℚ → String → String → Breakdown
  deriving DecidableEq, Repr

/-- The verdict rendered by the health section: which path ran, the risk
category, the value passed to st.progress, and the metric breakdown. -/
structure RiskVerdict where
  tier : Tier
  level : RiskLevelDisplay
  progress : ℚ
  breakdown : Breakdown
  deriving DecidableEq, Repr

/-- Lines 259 to 278: the fallback branch taken when the response body
carries the error key.  Risk is derived from the prediction confidence
alone; st.progress receives the raw confidence. -/
def errorFallbackVerdict (confidence : ℚ) : RiskVerdict :=
  { tier := Tier.CONFIDENCE_FALLBACK_ERROR,
    level :=
      if confidence > 0.75 then RiskLevelDisplay.HEALTHY
      else if confidence > 0.5 then RiskLevelDisplay.RISKY
      else RiskLevelDisplay.CRITICAL,
    progress := confidence,
    breakdown := Breakdown.fallback confidence
      (if confidence > 0.75 then ("Healthy")
       else if confidence > 0.5 then ("Risky") else ("Critical"))
      (if confidence > 0.75 then ("Low")
       else if confidence > 0.5 then ("Medium") else ("High")) }

/-- Lines 279 to 298: the fallback branch taken when the failure-risk call
raises.  The source duplicates the body of the error-marker branch
verbatim; the duplication is kept here. -/
def transportFallbackVerdict (confidence : ℚ) : RiskVerdict :=
  { tier := Tier.CONFIDENCE_FALLBACK_TRANSPORT,
    level :=
      if confidence > 0.75 then RiskLevelDisplay.HEALTHY
      else if confidence > 0.5 then RiskLevelDisplay.RISKY
      else RiskLevelDisplay.CRITICAL,
    progress := confidence,
    breakdown := Breakdown.fallback confidence
      (if confidence > 0.75 then ("Healthy")
       else if confidence > 0.5 then ("Risky") else ("Critical"))
      (if confidence > 0.75 then ("Low")
       else if confidence > 0.5 then ("Medium") else ("High")) }

/-- Lines 221 to 258: the telemetry branch.  Reads risk with default
UNKNOWN, the degradation object with default empty, and each metric with
default 0; st.progress receives min 1 of the degradation when positive,
otherwise of the confidence (line 237). -/
def telemetryVerdict (risk_data : RiskData) (confidence : ℚ) : RiskVerdict :=
  let risk_level := risk_data.risk.getD ("UNKNOWN")
  let degradation := risk_data.degradation.getD ⟨none, none, none⟩
  let overall_deg := degradation.overall_degradation.getD 0
  { tier := Tier.TELEMETRY,
    level :=
      if risk_level = "HIGH" then RiskLevelDisplay.CRITICAL
      else if risk_level = "MEDIUM" then RiskLevelDisplay.RISKY
      else RiskLevelDisplay.HEALTHY,
    progress := min 1 (if overall_deg > 0 then overall_deg else confidence),
    breakdown := Breakdown.telemetry (degradation.confidence_drop.getD 0)
      (degradation.psi_increase.getD 0) risk_level }

/-- Lines 216 to 298: the per-prediction health classifier.  A successful
call without the error key goes to the telemetry branch; a body carrying
the error key goes to the first fallback; an exception goes to the
second. -/
def classify (confidence : ℚ) : ReportOutcome → RiskVerdict
  | ReportOutcome.success risk_data =>
      if risk_data.error = none then telemetryVerdict risk_data confidence
      else errorFallbackVerdict confidence
  | ReportOutcome.transportFailure => transportFallbackVerdict confidence

/-- The metrics object of the aggregate failure-risk response (line 368). -/
structure Metrics where
  avg_confidence : Option ℚ
  deriving DecidableEq, Repr

/-- The aggregate failure-risk response body used by the system-health
section (lines 366 to 383). -/
structure FailureData where
  metrics : Option Metrics
  failure_probability : Option ℚ
  deriving DecidableEq, Repr

/-- The system-wide health indicator (lines 378 to 383). -/
inductive SystemHealth where
  | HEALTHY : SystemHealth
  | AT_RISK : SystemHealth
  | CRITICAL : SystemHealth
  deriving DecidableEq, Repr

/-- Line 368: average confidence shown for display, read through two
dictionary lookups each defaulting (metrics to empty, avg_confidence
to 0). -/
def systemAvgConfidence (failure_data : FailureData) : ℚ :=
  ((failure_data.metrics.getD ⟨none⟩).avg_confidence).getD 0

/-- Lines 369 and 378 to 383: the system-wide health verdict, computed
from failure_probability (default 0) alone. -/
def systemHealth (failure_data : FailureData) : SystemHealth :=
  let failure_prob := failure_data.failure_probability.getD 0
  if failure_prob < 0.3 then SystemHealth.HEALTHY
  else if failure_prob < 0.7 then SystemHealth.AT_RISK
  else SystemHealth.CRITICAL

/-- C1: when no usable failure-risk report is available (error-marker and
transport-failure tiers), the displayed risk level is HEALTHY for
confidence above 0.75, RISKY for confidence in the half-open interval
from 0.5 exclusive to 0.75 inclusive, and CRITICAL at or below 0.5; in
particular confidence 0.76 gives HEALTHY, 0.75 gives RISKY, 0.51 gives
RISKY and 0.50 gives CRITICAL. -/
theorem fallback_confidence_thresholds (c : ℚ) (rd : RiskData) (v : Jsonv)
    (herr : rd.error = some v) :
    ((c > 0.75 →
        (classify c (ReportOutcome.success rd)).level = RiskLevelDisplay.HEALTHY)
      ∧ (0.5 < c → c ≤ 0.75 →
        (classify c (ReportOutcome.success rd)).level = RiskLevelDisplay.RISKY)
      ∧ (c ≤ 0.5 →
        (classify c (ReportOutcome.success rd)).level = RiskLevelDisplay.CRITICAL))
    ∧ ((c > 0.75 →
        (classify c ReportOutcome.transportFailure).level = RiskLevelDisplay.HEALTHY)
      ∧ (0.5 < c → c ≤ 0.75 →
        (classify c ReportOutcome.transportFailure).level = RiskLevelDisplay.RISKY)
      ∧ (c ≤ 0.5 →
        (classify c ReportOutcome.transportFailure).level = RiskLevelDisplay.CRITICAL))
    ∧ ((classify 0.76 ReportOutcome.transportFailure).level = RiskLevelDisplay.HEALTHY
      ∧ (classify 0.75 ReportOutcome.transportFailure).level = RiskLevelDisplay.RISKY
      ∧ (classify 0.51 ReportOutcome.transportFailure).level = RiskLevelDisplay.RISKY
      ∧ (classify 0.50 ReportOutcome.transportFailure).level = RiskLevelDisplay.CRITICAL) := by
  refine ⟨⟨?_, ?_, ?_⟩, ⟨?_, ?_, ?_⟩,
    by norm_num [classify, transportFallbackVerdict]⟩
  · intro h
    simp [classify, herr, errorFallbackVerdict, h]
  · intro h1 h2
    have h3 : ¬ ((0.75 : ℚ) < c) := not_lt.mpr h2
    simp [classify, herr, errorFallbackVerdict, h1, h3]
  · intro h
    have h1 : ¬ ((0.75 : ℚ) < c) := not_lt.mpr (le_trans h (by norm_num))
    have h2 : ¬ ((0.5 : ℚ) < c) := not_lt.mpr h
    simp [classify, herr, errorFallbackVerdict, h1, h2]
  · intro h
    simp [classify, transportFallbackVerdict, h]
  · intro h1 h2
    have h3 : ¬ ((0.75 : ℚ) < c) := not_lt.mpr h2
    simp [classify, transportFallbackVerdict, h1, h3]
  · intro h
    have h1 : ¬ ((0.75 : ℚ) < c) := not_lt.mpr (le_trans h (by norm_num))
    have h2 : ¬ ((0.5 : ℚ) < c) := not_lt.mpr h
    simp [classify, transportFallbackVerdict, h1, h2]

/-- Witness for C1: at confidence 0.8 and a body carrying the error key
with value null, the theorem applies and yields HEALTHY. -/
theorem fallback_confidence_thresholds_witness :
    (({ error := some Jsonv.null, risk := none, degradation := none } : RiskData).error
        = some Jsonv.null)
    ∧ (classify 0.8 (ReportOutcome.success
        { error := some Jsonv.null, risk := none, degradation := none })).level
        = RiskLevelDisplay.HEALTHY :=
  ⟨rfl,
    (fallback_confidence_thresholds 0.8
      { error := some Jsonv.null, risk := none, degradation := none }
      Jsonv.null rfl).1.1 (by norm_num)⟩

/-- C2: when the report is obtained and its body lacks the error key, the
telemetry tier is selected and the risk level depends only on the risk
field: HIGH maps to CRITICAL, MEDIUM maps to RISKY, and any other value
(the missing field reading as UNKNOWN) maps to HEALTHY, independent of the
prediction confidence. -/
theorem telemetry_risk_mapping (c : ℚ) (rd : RiskData) (hok : rd.error = none) :
    (classify c (ReportOutcome.success rd)).tier = Tier.TELEMETRY
    ∧ (rd.risk = some ("HIGH") →
        (classify c (ReportOutcome.success rd)).level = RiskLevelDisplay.CRITICAL)
    ∧ (rd.risk = some ("MEDIUM") →
        (classify c (ReportOutcome.success rd)).level = RiskLevelDisplay.RISKY)
    ∧ (rd.risk.getD ("UNKNOWN") ≠ "HIGH" → rd.risk.getD ("UNKNOWN") ≠ "MEDIUM" →
        (classify c (ReportOutcome.success rd)).level = RiskLevelDisplay.HEALTHY)
    ∧ ∀ c2 : ℚ, (classify c (ReportOutcome.success rd)).level
        = (classify c2 (ReportOutcome.success rd)).level := by
  refine ⟨?_, ?_, ?_, ?_, ?_⟩
  · simp [classify, hok, telemetryVerdict]
  · intro h
    simp [classify, hok, telemetryVerdict, h]
  · intro h
    simp [classify, hok, telemetryVerdict, h]
  · intro h1 h2
    simp [classify, hok, telemetryVerdict, h1, h2]
  · intro c2
    simp [classify, hok, telemetryVerdict]

/-- Witness for C2: a body with risk HIGH and confidence 0.99 still yields
CRITICAL. -/
theorem telemetry_risk_mapping_witness :
    (({ error := none, risk := some ("HIGH"), degradation := none } : RiskData).error = none)
    ∧ (({ error := none, risk := some ("HIGH"), degradation := none } : RiskData).risk
        = some ("HIGH"))
    ∧ (classify 0.99 (ReportOutcome.success
        { error := none, risk := some ("HIGH"), degradation := none })).level
        = RiskLevelDisplay.CRITICAL :=
  ⟨rfl, rfl,
    (telemetry_risk_mapping 0.99
      { error := none, risk := some ("HIGH"), degradation := none } rfl).2.1 rfl⟩

/-- Counterexample to C3: with overall_degradation 3/2 (strictly positive)
and confidence 1/2 in the telemetry tier, the displayed progress value is
1, not 3/2, because line 237 clamps with min 1; so the progress value does
not always equal overall_degradation when it is positive. -/
theorem telemetry_progress_unclamped_refuted :
    (((⟨none, none, some ⟨some (3/2), none, none⟩⟩ : RiskData).degradation.getD
        ⟨none, none, none⟩).overall_degradation.getD 0 = (3 : ℚ)/2)
    ∧ ((0 : ℚ) < 3/2)
    ∧ (classify (1/2) (ReportOutcome.success
        ⟨none, none, some ⟨some (3/2), none, none⟩⟩)).progress = 1
    ∧ ((1 : ℚ) ≠ 3/2) := by
  refine ⟨rfl, by norm_num, ?_, by norm_num⟩
  norm_num [classify, telemetryVerdict]

/-- C3 amended: in the telemetry tier the displayed progress value is
min 1 overall_degradation when overall_degradation is strictly positive
(hence equal to overall_degradation itself only when it is also at most
1), and falls back to min 1 confidence when overall_degradation is 0,
which equals the confidence whenever the confidence is at most 1; in
particular overall_degradation 0.42 gives progress 0.42. -/
theorem telemetry_progress_value (c : ℚ) (rd : RiskData) (hok : rd.error = none) :
    (0 < (rd.degradation.getD ⟨none, none, none⟩).overall_degradation.getD 0 →
      (classify c (ReportOutcome.success rd)).progress
        = min 1 ((rd.degradation.getD ⟨none, none, none⟩).overall_degradation.getD 0))
    ∧ (0 < (rd.degradation.getD ⟨none, none, none⟩).overall_degradation.getD 0 →
        (rd.degradation.getD ⟨none, none, none⟩).overall_degradation.getD 0 ≤ 1 →
      (classify c (ReportOutcome.success rd)).progress
        = (rd.degradation.getD ⟨none, none, none⟩).overall_degradation.getD 0)
    ∧ ((rd.degradation.getD ⟨none, none, none⟩).overall_degradation.getD 0 = 0 → c ≤ 1 →
      (classify c (ReportOutcome.success rd)).progress = c)
    ∧ ((rd.degradation.getD ⟨none, none, none⟩).overall_degradation.getD 0 = 42/100 →
      (classify c (ReportOutcome.success rd)).progress = 42/100) := by
  refine ⟨?_, ?_, ?_, ?_⟩
  · intro h
    simp [classify, hok, telemetryVerdict, h]
  · intro h h1
    simp [classify, hok, telemetryVerdict, h, min_eq_right h1]
  · intro h hc
    simp [classify, hok, telemetryVerdict, h, min_eq_right hc]
  · intro h
    rw [show ((42 : ℚ)/100) = min 1 (42/100) by norm_num]
    simp [classify, hok, telemetryVerdict, h]

/-- Witness for C3 amended: overall_degradation 0.42 with confidence 0.9
gives progress 0.42. -/
theorem telemetry_progress_value_witness :
    ((⟨none, none, some ⟨some (42/100), none, none⟩⟩ : RiskData).error = none)
    ∧ (classify (9/10) (ReportOutcome.success
        ⟨none, none, some ⟨some (42/100), none, none⟩⟩)).progress = 42/100 :=
  ⟨rfl,
    (telemetry_progress_value (9/10)
      ⟨none, none, some ⟨some (42/100), none, none⟩⟩ rfl).2.2.2 rfl⟩

/-- C4: for every confidence, the verdict produced when the report body
carries the error key equals the verdict produced when the call fails
outright, in risk level, progress value and breakdown; the two paths
differ only in the tier tag. -/
theorem fallback_tiers_equivalent (c : ℚ) (rd : RiskData) (v : Jsonv)
    (herr : rd.error = some v) :
    (classify c (ReportOutcome.success rd)).level
        = (classify c ReportOutcome.transportFailure).level
    ∧ (classify c (ReportOutcome.success rd)).progress
        = (classify c ReportOutcome.transportFailure).progress
    ∧ (classify c (ReportOutcome.success rd)).breakdown
        = (classify c ReportOutcome.transportFailure).breakdown
    ∧ (classify c (ReportOutcome.success rd)).tier = Tier.CONFIDENCE_FALLBACK_ERROR
    ∧ (classify c ReportOutcome.transportFailure).tier
        = Tier.CONFIDENCE_FALLBACK_TRANSPORT := by
  refine ⟨?_, ?_, ?_, ?_, ?_⟩ <;>
    simp [classify, herr, errorFallbackVerdict, transportFallbackVerdict]

/-- Witness for C4: at confidence 0.6 and an error value null, both
fallback paths agree on the level. -/
theorem fallback_tiers_equivalent_witness :
    (({ error := some Jsonv.null, risk := none, degradation := none } : RiskData).error
        = some Jsonv.null)
    ∧ (classify (6/10) (ReportOutcome.success
        { error := some Jsonv.null, risk := none, degradation := none })).level
        = (classify (6/10) ReportOutcome.transportFailure).level :=
  ⟨rfl,
    (fallback_tiers_equivalent (6/10)
      { error := some Jsonv.null, risk := none, degradation := none }
      Jsonv.null rfl).1⟩

/-- C5: when the aggregate failure-risk report is available, the
system-wide verdict is a function of failure_probability alone: HEALTHY
below 0.3, AT_RISK below 0.7, CRITICAL otherwise; it is independent of the
per-prediction verdict, so failure_probability 0.29 gives HEALTHY and 0.71
gives CRITICAL whatever risk level the classifier returns for the
prediction. -/
theorem system_health_thresholds (fd : FailureData) (fp : ℚ)
    (hfp : fd.failure_probability = some fp) :
    (fp < 0.3 → systemHealth fd = SystemHealth.HEALTHY)
    ∧ (0.3 ≤ fp → fp < 0.7 → systemHealth fd = SystemHealth.AT_RISK)
    ∧ (0.7 ≤ fp → systemHealth fd = SystemHealth.CRITICAL)
    ∧ (fp = 29/100 → ∀ (c : ℚ) (ro : ReportOutcome),
        (classify c ro).level = RiskLevelDisplay.CRITICAL →
        systemHealth fd = SystemHealth.HEALTHY)
    ∧ (fp = 71/100 → ∀ (c : ℚ) (ro : ReportOutcome),
        (classify c ro).level = RiskLevelDisplay.HEALTHY →
        systemHealth fd = SystemHealth.CRITICAL) := by
  have hh : ∀ h1 : fp < 0.3, systemHealth fd = SystemHealth.HEALTHY := by
    intro h1
    simp [systemHealth, hfp, h1]
  have hc : ∀ h1 : 0.7 ≤ fp, systemHealth fd = SystemHealth.CRITICAL := by
    intro h1
    have h2 : ¬ (fp < (0.3 : ℚ)) := not_lt.mpr (le_trans (by norm_num) h1)
    have h3 : ¬ (fp < (0.7 : ℚ)) := not_lt.mpr h1
    simp [systemHealth, hfp, h2, h3]
  refine ⟨hh, ?_, hc, ?_, ?_⟩
  · intro h1 h2
    have h3 : ¬ (fp < (0.3 : ℚ)) := not_lt.mpr h1
    simp [systemHealth, hfp, h3, h2]
  · intro h1 c ro _
    exact hh (by rw [h1]; norm_num)
  · intro h1 c ro _
    exact hc (by rw [h1]; norm_num)

/-- Witness for C5: failure_probability 0.29 gives a HEALTHY system
verdict even while the per-prediction verdict at confidence 0.2 under a
transport failure is CRITICAL. -/
theorem system_health_thresholds_witness :
    (({ metrics := none, failure_probability := some (29/100) } : FailureData).failure_probability
        = some (29/100))
    ∧ ((29 : ℚ)/100 = 29/100)
    ∧ (classify (2/10) ReportOutcome.transportFailure).level = RiskLevelDisplay.CRITICAL
    ∧ systemHealth { metrics := none, failure_probability := some (29/100) }
        = SystemHealth.HEALTHY := by
  have hlev : (classify (2/10) ReportOutcome.transportFailure).level
      = RiskLevelDisplay.CRITICAL := by
    norm_num [classify, transportFallbackVerdict]
  exact ⟨rfl, rfl, hlev,
    (system_health_thresholds { metrics := none, failure_probability := some (29/100) }
      (29/100) rfl).2.2.2.1 rfl (2/10) ReportOutcome.transportFailure hlev⟩

/-- C6: the mere presence of the error key in a successfully obtained body
routes classification to the confidence-only fallback, whatever value the
key holds (null, empty string, a number, a boolean or any other string). -/
theorem error_key_selects_fallback (c : ℚ) (rd : RiskData) (v : Jsonv)
    (herr : rd.error = some v) :
    classify c (ReportOutcome.success rd) = errorFallbackVerdict c
    ∧ (classify c (ReportOutcome.success rd)).tier = Tier.CONFIDENCE_FALLBACK_ERROR := by
  constructor
  · simp [classify, herr]
  · simp [classify, herr, errorFallbackVerdict]

/-- Witness for C6: an error key holding the empty string routes
confidence 0.9 to the fallback verdict. -/
theorem error_key_selects_fallback_witness :
    ((⟨some (Jsonv.str ("")), none, none⟩ : RiskData).error = some (Jsonv.str ("")))
    ∧ classify (9/10) (ReportOutcome.success ⟨some (Jsonv.str ("")), none, none⟩)
        = errorFallbackVerdict (9/10) :=
  ⟨rfl,
    (error_key_selects_fallback (9/10) ⟨some (Jsonv.str ("")), none, none⟩
      (Jsonv.str ("")) rfl).1⟩

/-- C7: the telemetry branch substitutes defaults for missing fields
instead of failing: a body with every field missing yields the verdict
with risk read as UNKNOWN (hence HEALTHY), all breakdown metrics 0, and
progress falling back to the confidence; a missing degradation object
behaves exactly like one whose numeric fields are all 0, and a missing
risk field behaves exactly like risk UNKNOWN. -/
theorem telemetry_defaults_total (c : ℚ) :
    (classify c (ReportOutcome.success ⟨none, none, none⟩)
      = { tier := Tier.TELEMETRY, level := RiskLevelDisplay.HEALTHY,
          progress := min 1 c, breakdown := Breakdown.telemetry 0 0 ("UNKNOWN") })
    ∧ (∀ risk : Option String,
        classify c (ReportOutcome.success ⟨none, risk, none⟩)
          = classify c (ReportOutcome.success ⟨none, risk, some ⟨some 0, some 0, some 0⟩⟩))
    ∧ (∀ risk : Option String,
        classify c (ReportOutcome.success ⟨none, risk, some ⟨none, none, none⟩⟩)
          = classify c (ReportOutcome.success ⟨none, risk, some ⟨some 0, some 0, some 0⟩⟩))
    ∧ (∀ d : Option Degradation,
        classify c (ReportOutcome.success ⟨none, none, d⟩)
          = classify c (ReportOutcome.success ⟨none, some ("UNKNOWN"), d⟩)) := by
  refine ⟨?_, ?_, ?_, ?_⟩
  · simp [classify, telemetryVerdict]
  · intro risk
    simp [classify, telemetryVerdict]
  · intro risk
    simp [classify, telemetryVerdict]
  · intro d
    simp [classify, telemetryVerdict]

/-- C8: the classifier is total and deterministic: for every confidence
and report outcome it yields exactly one verdict, a function of those
inputs alone. -/
theorem classify_total_deterministic (c : ℚ) (ro : ReportOutcome) :
    ∃! verdict : RiskVerdict, classify c ro = verdict :=
  ⟨classify c ro, rfl, fun _ h => h.symm⟩

/-- C9: the telemetry branch clamps the displayed progress value to at
most 1 through min 1, while both confidence-fallback branches pass the raw
confidence through unclamped. -/
theorem progress_clamp_telemetry_only (c : ℚ) (rd : RiskData) (v : Jsonv) :
    (rd.error = none → (classify c (ReportOutcome.success rd)).progress ≤ 1)
    ∧ (rd.error = some v → (classify c (ReportOutcome.success rd)).progress = c)
    ∧ (classify c ReportOutcome.transportFailure).progress = c := by
  refine ⟨?_, ?_, ?_⟩
  · intro hok
    simp only [classify, hok, if_pos, telemetryVerdict]
    exact min_le_left 1 _
  · intro herr
    simp [classify, herr, errorFallbackVerdict]
  · simp [classify, transportFallbackVerdict]

/-- Witness for C9: with overall_degradation 5 the telemetry progress
value stays at most 1, while a transport failure at confidence 3/2 passes
3/2 through unclamped. -/
theorem progress_clamp_telemetry_only_witness :
    ((⟨none, none, some ⟨some 5, none, none⟩⟩ : RiskData).error = none)
    ∧ (classify (3/2) (ReportOutcome.success
        ⟨none, none, some ⟨some 5, none, none⟩⟩)).progress ≤ 1
    ∧ (classify (3/2) ReportOutcome.transportFailure).progress = 3/2 :=
  ⟨rfl,
    (progress_clamp_telemetry_only (3/2) ⟨none, none, some ⟨some 5, none, none⟩⟩
      Jsonv.null).1 rfl,
    (progress_clamp_telemetry_only (3/2) ⟨none, none, some ⟨some 5, none, none⟩⟩
      Jsonv.null).2.2⟩

/-- C10: a missing failure_probability field defaults to 0, so the system
verdict for such a body is HEALTHY; a missing metrics object, or a metrics
object without avg_confidence, makes the displayed average confidence 0. -/
theorem system_defaults (fd : FailureData) :
    (fd.failure_probability = none → systemHealth fd = SystemHealth.HEALTHY)
    ∧ (fd.metrics = none → systemAvgConfidence fd = 0)
    ∧ (∀ m : Metrics, fd.metrics = some m → m.avg_confidence = none →
        systemAvgConfidence fd = 0) := by
  refine ⟨?_, ?_, ?_⟩
  · intro h
    norm_num [systemHealth, h]
  · intro h
    simp [systemAvgConfidence, h]
  · intro m hm ha
    simp [systemAvgConfidence, hm, ha]

/-- Witness for C10: the empty aggregate body yields the HEALTHY system
verdict and a displayed average confidence of 0. -/
theorem system_defaults_witness :
    (({ metrics := none, failure_probability := none } : FailureData).failure_probability
        = none)
    ∧ systemHealth { metrics := none, failure_probability := none } = SystemHealth.HEALTHY
    ∧ systemAvgConfidence { metrics := none, failure_probability := none } = 0 :=
  ⟨rfl,
    (system_defaults { metrics := none, failure_probability := none }).1 rfl,
    (system_defaults { metrics := none, failure_probability := none }).2.1 rfl⟩

end PredictionUI
